import Mathlib

/-
Verification of the TetraEar channel-decoder driver (AMR-Code/cdecoder.c and
AMR-Code/init_params.c).

The definitions below are a shallow embedding of the decoder driver: 16-bit
words are modelled as Int, arrays as functions Nat → Int or lists, and the
per-slot control flow of main (cdecoder.c lines 59-268) as pure functions.
The subroutines Channel_Decoding, Desinterleaving_Speech,
Desinterleaving_Signalling and Read_Tetra_File live in repository files that
are not part of src/; where a claim needs them they enter as explicit
function parameters, so every theorem quantifying over them covers every
deterministic implementation.
-/

/-- Frame_stealing flag for slot `k` of the main loop (cdecoder.c lines
125-126): when the simulation is enabled it is `(Loop_counter % 10) == 2`,
otherwise it keeps its initial value 0. -/
def frameStealingFlag (enabled : Bool) (k : Nat) : Int :=
  if enabled then (if k % 10 = 2 then 1 else 0) else 0

/-- FRAME_STEALING flag resulting from argument parsing (cdecoder.c lines
113-117): set exactly when a fifth argument exists and its first character
is the letter S (the source tests only `argv[4][0]`). -/
def FRAME_STEALING_of (argv : List String) : Bool :=
  match argv.get? 4 with
  | some s =>
    match s.toList with
    | c :: _ => c == 'S'
    | [] => false
  | none => false

/-- First character of the fifth argument, when both exist: the character
the source inspects as `argv[4][0]`. -/
def fifthArgHead (argv : List String) : Option Char :=
  (argv.get? 4).bind (fun s => s.toList.head?)

/-- Per-slot BFI computation (cdecoder.c lines 153-178). `CoderType` is 0
for TETRA, nonzero for AMR475; `fs` is the Frame_stealing flag and `d` the
value returned by Channel_Decoding. Returns the pair (bfi1, bfi2) as they
stand when the write phase begins. -/
def slotBfi (CoderType fs d : Int) : Int × Int :=
  if CoderType = 0 then
    let bfi1 := fs
    let bfi2 := d
    let bfi1 := if fs = 0 ∧ bfi2 = 1 then 1 else bfi1
    (bfi1, bfi2)
  else
    let bfi2 := fs
    let bfi1 := d
    let bfi2 := if fs = 0 ∧ bfi1 = 1 then 1 else bfi2
    (bfi1, bfi2)

/-- AMR475 header word written before each speech frame (cdecoder.c lines
213, 228, 243): `if (b) bfi3 = 3; else bfi3 = 0;`. -/
def bfi3_of (b : Int) : Int :=
  if b ≠ 0 then 3 else 0

/-- Words written for one TETRA slot (cdecoder.c lines 186-209): bfi1, the
first 137 words of Reordered_array, bfi2, the next 137 words. -/
def slotOutTETRA (bfi1 bfi2 : Int) (r : Nat → Int) : List Int :=
  (bfi1 :: (List.range 137).map r) ++
  (bfi2 :: (List.range 137).map (fun i => r (137 + i)))

/-- Words written for one AMR475 speech-frame record (cdecoder.c lines
213-226 and the two analogous blocks): the bfi3 header derived from `b`,
the frame body, `244 - Lvf` padding zeros, the mode word, four zeros. -/
def amrFrameOut (Lvf : Nat) (mode b : Int) (frame : List Int) : List Int :=
  (bfi3_of b :: frame) ++ (List.replicate (244 - Lvf) 0 ++ (mode :: List.replicate 4 0))

/-- Words written for one AMR475 slot (cdecoder.c lines 210-257): three
speech-frame records whose headers are derived from bfi1, bfi1 and bfi2
respectively, with mode = CoderType - 1. -/
def slotOutAMR (CoderType : Int) (Lvf : Nat) (bfi1 bfi2 : Int) (r : Nat → Int) : List Int :=
  (amrFrameOut Lvf (CoderType - 1) bfi1 ((List.range Lvf).map r)) ++
  ((amrFrameOut Lvf (CoderType - 1) bfi1 ((List.range Lvf).map (fun i => r (Lvf + i)))) ++
   (amrFrameOut Lvf (CoderType - 1) bfi2 ((List.range Lvf).map (fun i => r (2 * Lvf + i)))))

/-- The ALLOW_NEG macro (init_params.c line 35) applied with the current
value of N1_2. C integer division and remainder truncate toward zero; on
the operands that occur here `Int.tdiv` and `%` (with `-x` positive) mirror
them exactly. -/
def ALLOW_NEG (n1_2 x : Int) : Int :=
  if x < 0 then
    if (-x) % 2 = 1 then Int.tdiv (-x) 2 - n1_2 + 1
    else Int.tdiv x 2 + 1
  else x

/-- The ALLOW_NEG mapping as the spec words it: an (index, flip) pair, with
`i >= 0 -> (i, flip=false)`; for negative i with odd -i the index
`(-i)/2 - N1_2 + 1` with flip set; for even -i the index `i/2 + 1`
(truncating division on the negative i) with flip set. -/
def allowNegPair (n1_2 x : Int) : Int × Bool :=
  if 0 ≤ x then (x, false)
  else if (-x) % 2 = 1 then (Int.tdiv (-x) 2 - n1_2 + 1, true)
  else (Int.tdiv x 2 + 1, true)

/-- Progress messages printed by the main loop (cdecoder.c lines 156, 164,
169, 177), abstracted to their kind and the frame number they carry. -/
inductive Msg where
  | stolen (n : Int)
  | bfiActive (n : Int)
deriving DecidableEq, Repr

/-- Frame number carried by a progress message. -/
def msgNum : Msg → Int
  | Msg.stolen n => n
  | Msg.bfiActive n => n

/-- Messages printed while processing slot `k` (zero-based Loop_counter):
both modes print `Loop_counter + 1`; the stolen message fires on a truthy
Frame_stealing, and the Bfi-active message on a truthy bfi2 (TETRA, line
164) respectively bfi1 (AMR475, line 177) - in both branches the value
returned by Channel_Decoding. -/
def slotMsgs (CoderType fs d : Int) (k : Nat) : List Msg :=
  if CoderType = 0 then
    (if fs ≠ 0 then [Msg.stolen ((k : Int) + 1)] else []) ++
    (if (slotBfi 0 fs d).2 ≠ 0 then [Msg.bfiActive ((k : Int) + 1)] else [])
  else
    (if fs ≠ 0 then [Msg.stolen ((k : Int) + 1)] else []) ++
    (if (slotBfi CoderType fs d).1 ≠ 0 then [Msg.bfiActive ((k : Int) + 1)] else [])

/-- One fwrite call of the per-slot write phase: the number of 16-bit items
requested and whether the source checks its return value (a checked short
write prints the error message and breaks the main loop; an unchecked one
is ignored). -/
structure WriteOp where
  count : Nat
  checked : Bool
deriving DecidableEq, Repr

/-- The fwrite calls issued for one slot, in order (cdecoder.c lines
186-257). TETRA: four checked writes. AMR475: per speech frame a checked
header, a checked body, then unchecked padding, mode and trailing zeros. -/
def slotWriteOps (CoderType : Int) (Lvf : Nat) : List WriteOp :=
  if CoderType = 0 then
    [WriteOp.mk 1 true, WriteOp.mk 137 true, WriteOp.mk 1 true, WriteOp.mk 137 true]
  else
    [WriteOp.mk 1 true, WriteOp.mk Lvf true,
     WriteOp.mk (244 - Lvf) false, WriteOp.mk 1 false, WriteOp.mk 4 false,
     WriteOp.mk 1 true, WriteOp.mk Lvf true,
     WriteOp.mk (244 - Lvf) false, WriteOp.mk 1 false, WriteOp.mk 4 false,
     WriteOp.mk 1 true, WriteOp.mk Lvf true,
     WriteOp.mk (244 - Lvf) false, WriteOp.mk 1 false, WriteOp.mk 4 false]

/-- Executes the write phase of one slot against a failure oracle `fails`
over global write indices starting at `start`. Returns (breaks, messages):
whether the main loop is broken, and how many error messages are printed.
A failing checked write prints one message and breaks at once; a failing
unchecked write is ignored and processing continues. -/
def slotWriteRun (fails : Nat → Bool) : List WriteOp → Nat → Bool × Nat
  | [], _ => (false, 0)
  | op :: rest, i =>
    if fails i then
      if op.checked then (true, 1) else slotWriteRun fails rest (i + 1)
    else slotWriteRun fails rest (i + 1)

/-- How the main loop ends: end of input, or a break caused by a failing
checked write. -/
inductive LoopEnd where
  | eof
  | writeBreak
deriving DecidableEq

/-- Exit status of main after the loop ends (cdecoder.c lines 260-267):
both paths fall through to the summary printfs and return EXIT_SUCCESS. -/
def exitStatus : LoopEnd → Int
  | LoopEnd.eof => 0
  | LoopEnd.writeBreak => 0

/-- Run configuration fixed at startup: CoderType, the FRAME_STEALING
simulation switch, and Length_vocoder_frame from the parameter set. -/
structure Cfg where
  CoderType : Int
  FRAME_STEALING : Bool
  Lvf : Nat

/-- One iteration of the main loop (cdecoder.c lines 123-258) with all
writes succeeding. `chDec` stands for Channel_Decoding (first_pass,
Frame_stealing, Coded_array ↦ (bfi, Reordered_array)) and `desSpeech`,
`desSig` for the two deinterleavers; they are in repository files outside
src/ and enter as parameters. Returns the words written and the messages
printed for slot `k`. -/
def processSlot (cfg : Cfg)
    (chDec : Bool → Int → (Nat → Int) → Int × (Nat → Int))
    (desSpeech : (Nat → Int) → Nat → Int)
    (desSig : (Nat → Int) → Nat → Int)
    (first_pass : Bool) (k : Nat) (slot : Nat → Int) : List Int × List Msg :=
  let fs : Int := frameStealingFlag cfg.FRAME_STEALING k
  let coded : Nat → Int :=
    if fs ≠ 0 then
      fun i => if i < 216 then slot i else desSig (fun t => slot (216 + t)) (i - 216)
    else desSpeech slot
  let dr := chDec first_pass fs coded
  let b := slotBfi cfg.CoderType fs dr.1
  let out :=
    if cfg.CoderType = 0 then slotOutTETRA b.1 b.2 dr.2
    else slotOutAMR cfg.CoderType cfg.Lvf b.1 b.2 dr.2
  (out, slotMsgs cfg.CoderType fs dr.1 k)

/-- A full run of the decoder driver over the list of slots read before
end of file, with all writes succeeding: the concatenated output words and
progress messages. first_pass is true only on slot 0 (cdecoder.c line
180). -/
def cdecoderRun (cfg : Cfg)
    (chDec : Bool → Int → (Nat → Int) → Int × (Nat → Int))
    (desSpeech : (Nat → Int) → Nat → Int)
    (desSig : (Nat → Int) → Nat → Int)
    (slots : List (Nat → Int)) : List Int × List Msg :=
  let res := slots.mapIdx (fun k slot => processSlot cfg chDec desSpeech desSig (k == 0) k slot)
  ((res.map Prod.fst).flatten, (res.map Prod.snd).flatten)

/-- Unfolding lemma: the write phase of a slot breaks precisely when some
write op in the slot is both failing and checked. -/
theorem slotWriteRun_break_iff (fails : Nat → Bool) (ops : List WriteOp) :
    ∀ start : Nat,
      ((slotWriteRun fails ops start).1 = true ↔
        ∃ j, j < ops.length ∧ fails (start + j) = true ∧
          (ops.getD j (WriteOp.mk 0 false)).checked = true) := by
  induction ops with
  | nil =>
    intro start
    simp [slotWriteRun]
  | cons op rest ih =>
    intro start
    by_cases hf : fails start = true
    · by_cases hc : op.checked = true
      · constructor
        · intro _
          refine ⟨0, by simp, by simpa using hf, by simpa using hc⟩
        · intro _
          simp [slotWriteRun, hf, hc]
      · have hstep : slotWriteRun fails (op :: rest) start = slotWriteRun fails rest (start + 1) := by
          simp [slotWriteRun, hf, hc]
        rw [hstep, ih (start + 1)]
        constructor
        · rintro ⟨j, hj, hfj, hcj⟩
          refine ⟨j + 1, by simp only [List.length_cons]; omega, ?_, by simpa using hcj⟩
          have h1 : start + (j + 1) = start + 1 + j := by omega
          rw [h1]; exact hfj
        · rintro ⟨j, hj, hfj, hcj⟩
          cases j with
          | zero =>
            exact absurd (by simpa using hcj) hc
          | succ j =>
            refine ⟨j, by simp only [List.length_cons] at hj; omega, ?_, by simpa using hcj⟩
            have h1 : start + 1 + j = start + (j + 1) := by omega
            rw [h1]; exact hfj
    · have hstep : slotWriteRun fails (op :: rest) start = slotWriteRun fails rest (start + 1) := by
        simp [slotWriteRun, hf]
      rw [hstep, ih (start + 1)]
      constructor
      · rintro ⟨j, hj, hfj, hcj⟩
        refine ⟨j + 1, by simp only [List.length_cons]; omega, ?_, by simpa using hcj⟩
        have h1 : start + (j + 1) = start + 1 + j := by omega
        rw [h1]; exact hfj
      · rintro ⟨j, hj, hfj, hcj⟩
        cases j with
        | zero =>
          exact absurd (by simpa using hfj) hf
        | succ j =>
          refine ⟨j, by simp only [List.length_cons] at hj; omega, ?_, by simpa using hcj⟩
          have h1 : start + 1 + j = start + (j + 1) := by omega
          rw [h1]; exact hfj

/-- Unfolding lemma: the write phase of a slot prints exactly one error
message when it breaks and none otherwise. -/
theorem slotWriteRun_msgs (fails : Nat → Bool) (ops : List WriteOp) :
    ∀ start : Nat,
      (slotWriteRun fails ops start).2 =
        if (slotWriteRun fails ops start).1 = true then 1 else 0 := by
  induction ops with
  | nil => intro start; simp [slotWriteRun]
  | cons op rest ih =>
    intro start
    by_cases hf : fails start = true <;> by_cases hc : op.checked = true <;>
      simp [slotWriteRun, hf, hc, ih (start + 1)]

set_option maxRecDepth 10000 in
/-- C1: code-bug evidence. In AMR475 mode a stolen slot whose
Channel_Decoding result is 0 yields (bfi1, bfi2) = (0, 1); the slot then
emits BFI header words 0, 0 and 3 at word offsets 0, 250 and 500 (with
Lvf = 95). The header before the second speech frame is derived from bfi1
and emits 0, while the claim says it is derived from bfi2 and would emit
3. -/
theorem amr_bfi_header_bug :
    slotBfi 1 1 0 = (0, 1) ∧
    (slotOutAMR 1 95 0 1 (fun _ => 0)).get? 0 = some 0 ∧
    (slotOutAMR 1 95 0 1 (fun _ => 0)).get? 250 = some 0 ∧
    (slotOutAMR 1 95 0 1 (fun _ => 0)).get? 500 = some 3 := by
  refine ⟨by decide, by decide, by decide, by decide⟩

/-- C2: every fully written slot contributes a fixed number of output
words: a TETRA slot record (bfi1, 137 frame words, bfi2, 137 frame words)
is 276 16-bit words, and an AMR475 slot is 750 16-bit words, each of its
three speech-frame records being 250 words. -/
theorem slot_output_length (b1 b2 : Int) (r : Nat → Int) (ct : Int) (Lvf : Nat)
    (hL : Lvf ≤ 244) :
    (slotOutTETRA b1 b2 r).length = 276 ∧
    (slotOutAMR ct Lvf b1 b2 r).length = 750 ∧
    (amrFrameOut Lvf (ct - 1) b1 ((List.range Lvf).map r)).length = 250 := by
  refine ⟨?_, ?_, ?_⟩ <;> simp [slotOutTETRA, slotOutAMR, amrFrameOut] <;> omega

/-- Witness for slot_output_length at Lvf = 95. -/
theorem slot_output_length_witness :
    95 ≤ 244 ∧
    ((slotOutTETRA 0 0 (fun _ => 0)).length = 276 ∧
     (slotOutAMR 1 95 0 0 (fun _ => 0)).length = 750 ∧
     (amrFrameOut 95 (1 - 1) 0 ((List.range 95).map (fun _ => 0))).length = 250) :=
  ⟨by decide, slot_output_length 0 0 (fun _ => 0) 1 95 (by decide)⟩

/-- C3: BFI cross-pollination. On an unstolen slot (Frame_stealing = 0)
TETRA ends with bfi1 = 1 exactly when bfi2 = 1 (else bfi1 keeps the
stealing flag 0), and AMR475 symmetrically ends with bfi2 = 1 exactly when
bfi1 = 1; on a stolen slot (fs different from 0) neither mode
cross-pollinates: the indicator keeps the stealing-flag value. -/
theorem bfi_cross_pollination (fs d : Int) (hfs : fs ≠ 0) :
    ((slotBfi 0 0 d).1 = if d = 1 then 1 else 0) ∧
    ((slotBfi 1 0 d).2 = if d = 1 then 1 else 0) ∧
    (slotBfi 0 fs d).1 = fs ∧ (slotBfi 1 fs d).2 = fs := by
  refine ⟨?_, ?_, ?_, ?_⟩ <;> simp [slotBfi, hfs]

/-- Witness for bfi_cross_pollination at fs = 1, d = 1. -/
theorem bfi_cross_pollination_witness :
    (1 : Int) ≠ 0 ∧
    (((slotBfi 0 0 1).1 = if (1 : Int) = 1 then 1 else 0) ∧
     ((slotBfi 1 0 1).2 = if (1 : Int) = 1 then 1 else 0) ∧
     (slotBfi 0 1 1).1 = 1 ∧ (slotBfi 1 1 1).2 = 1) :=
  ⟨by decide, bfi_cross_pollination 1 1 (by decide)⟩

/-- C4: in TETRA mode, on a slot with Frame_stealing = 1 the computed bfi1
is 1 - it starts as the stealing flag and the cross-pollination guard
requires Frame_stealing = 0, so no later step of the per-slot processing
clears it - and the first word the slot emits is that 1. -/
theorem tetra_stolen_bfi1_one (d : Int) (r : Nat → Int) :
    (slotBfi 0 1 d).1 = 1 ∧
    (slotOutTETRA (slotBfi 0 1 d).1 (slotBfi 0 1 d).2 r).head? = some 1 := by
  have h1 : (slotBfi 0 1 d).1 = 1 := by simp [slotBfi]
  exact ⟨h1, by simp [slotOutTETRA, h1]⟩

/-- C5 counterexample: the fifth argument SX is not the literal token S,
yet it enables frame-stealing simulation, and stealing then fires on slot
index 2 - contradicting the claim that without the token S stealing is
never activated. -/
theorem stealing_token_counterexample :
    (["cdecoder", "input", "output", "1", "SX"].get? 4 = some "SX") ∧
    "SX" ≠ "S" ∧
    FRAME_STEALING_of ["cdecoder", "input", "output", "1", "SX"] = true ∧
    frameStealingFlag (FRAME_STEALING_of ["cdecoder", "input", "output", "1", "SX"]) 2 = 1 := by
  refine ⟨by decide, by decide, by decide, by decide⟩

/-- C5 amended: frame-stealing simulation is enabled exactly when a fifth
command-line argument exists whose first character is the letter S (the
source checks only argv[4][0], so the literal token S enables it, but so
does any longer token starting with S); when enabled, stealing is active
with flag 1 exactly on slots whose zero-based index is 2 modulo 10, and
otherwise on no slot. -/
theorem stealing_flag_spec (argv : List String) (k : Nat) :
    (FRAME_STEALING_of argv = true ↔ fifthArgHead argv = some 'S') ∧
    frameStealingFlag (FRAME_STEALING_of argv) k =
      (if FRAME_STEALING_of argv = true ∧ k % 10 = 2 then 1 else 0) := by
  constructor
  · unfold FRAME_STEALING_of fifthArgHead
    cases h : argv.get? 4 with
    | none => simp
    | some s =>
      cases hs : s.data with
      | nil => simp [hs]
      | cons c cs => simp [hs, beq_iff_eq]
  · by_cases hF : FRAME_STEALING_of argv = true
    · simp [frameStealingFlag, hF]
    · have hF2 : FRAME_STEALING_of argv = false := by
        cases hb : FRAME_STEALING_of argv
        · rfl
        · exact absurd hb hF
      simp [frameStealingFlag, hF2]

/-- C6 counterexample: in AMR475 mode (Lvf = 95) a mid-stream short write
on the third fwrite of a slot - the 149 padding zeros, whose return value
the source does not check - neither prints an error message nor breaks the
main loop, contradicting the claim that every failing fwrite does both. -/
theorem unchecked_write_counterexample :
    (slotWriteOps 1 95).getD 2 (WriteOp.mk 0 false) = WriteOp.mk 149 false ∧
    (slotWriteRun (fun i => i == 2) (slotWriteOps 1 95) 0).1 = false ∧
    (slotWriteRun (fun i => i == 2) (slotWriteOps 1 95) 0).2 = 0 := by
  refine ⟨by decide, by decide, by decide⟩

/-- C6 amended: the four TETRA fwrites and the AMR475 BFI-header and
frame-body fwrites are checked - a short write on any of them prints one
error message and breaks the main loop, after which main exits with status
0, preserving whatever was written - while the AMR475 padding, mode and
trailing-zero fwrites are unchecked, so a short write there is silently
ignored: the write phase of a slot breaks exactly when some checked fwrite
of the slot fails. -/
theorem write_failure_behavior (ct : Int) (Lvf : Nat) (fails : Nat → Bool) (start : Nat) :
    (slotWriteOps 0 Lvf).map WriteOp.checked = [true, true, true, true] ∧
    (slotWriteOps 1 Lvf).map WriteOp.checked =
      [true, true, false, false, false, true, true, false, false, false,
       true, true, false, false, false] ∧
    ((slotWriteRun fails (slotWriteOps ct Lvf) start).1 = true ↔
      ∃ j, j < (slotWriteOps ct Lvf).length ∧ fails (start + j) = true ∧
        ((slotWriteOps ct Lvf).getD j (WriteOp.mk 0 false)).checked = true) ∧
    ((slotWriteRun fails (slotWriteOps ct Lvf) start).2 =
      if (slotWriteRun fails (slotWriteOps ct Lvf) start).1 = true then 1 else 0) ∧
    exitStatus LoopEnd.writeBreak = 0 :=
  ⟨by simp [slotWriteOps], by simp [slotWriteOps],
   slotWriteRun_break_iff fails (slotWriteOps ct Lvf) start,
   slotWriteRun_msgs fails (slotWriteOps ct Lvf) start, rfl⟩

/-- C7: the ALLOW_NEG mapping of init_params.c agrees case by case with
the (index, flip) reading given in the spec: a nonnegative entry passes
through with no flip; a negative entry with odd magnitude yields index
(-x)/2 - N1_2 + 1, a negative entry with even magnitude yields index
x/2 + 1 under C truncating division, in both cases with the flip flag set
(flip exactly when x < 0). -/
theorem allow_neg_spec (n1_2 x : Int) :
    ALLOW_NEG n1_2 x = (allowNegPair n1_2 x).1 ∧
    ((allowNegPair n1_2 x).2 = true ↔ x < 0) := by
  unfold ALLOW_NEG allowNegPair
  split_ifs <;> simp_all <;> omega

/-- C8: determinism. The decoder driver is a pure function of the input
slots, the configuration and the subroutines it calls, so two runs over
equal inputs produce identical output words and progress messages. -/
theorem decoder_deterministic (cfg : Cfg)
    (chDec : Bool → Int → (Nat → Int) → Int × (Nat → Int))
    (desSpeech desSig : (Nat → Int) → Nat → Int)
    (s₁ s₂ : List (Nat → Int)) (h : s₁ = s₂) :
    cdecoderRun cfg chDec desSpeech desSig s₁ = cdecoderRun cfg chDec desSpeech desSig s₂ := by
  rw [h]

/-- Witness for decoder_deterministic on a one-slot zero input in TETRA
mode. -/
theorem decoder_deterministic_witness :
    cdecoderRun (Cfg.mk 0 false 137) (fun _ _ _ => (0, fun _ => 0)) (fun f => f) (fun f => f)
        [fun _ => 0] =
      cdecoderRun (Cfg.mk 0 false 137) (fun _ _ _ => (0, fun _ => 0)) (fun f => f) (fun f => f)
        [fun _ => 0] :=
  decoder_deterministic _ _ _ _ _ _ rfl

/-- C9: in TETRA mode on an unstolen slot, with the Channel_Decoding
result a bad-frame indicator in the set 0, 1, the two emitted indicators
are equal: bfi1 starts at the stealing flag 0 and is set to 1 exactly when
bfi2 = 1. -/
theorem tetra_bfi_equal_unstolen (d : Int) (hd : d = 0 ∨ d = 1) :
    (slotBfi 0 0 d).1 = (slotBfi 0 0 d).2 := by
  rcases hd with h | h <;> subst h <;> decide

/-- Witness for tetra_bfi_equal_unstolen at d = 1. -/
theorem tetra_bfi_equal_unstolen_witness :
    ((1 : Int) = 0 ∨ (1 : Int) = 1) ∧ (slotBfi 0 0 1).1 = (slotBfi 0 0 1).2 :=
  ⟨Or.inr rfl, tetra_bfi_equal_unstolen 1 (Or.inr rfl)⟩

/-- C10: every progress message printed while processing the slot at
zero-based index k names frame k + 1, and under the S stealing schedule
the stolen message is printed exactly on slots with k mod 10 = 2, so the
stolen messages name frames 3, 13, 23 and so on. -/
theorem progress_message_numbering (ct fs d : Int) (k : Nat) :
    ((slotMsgs ct fs d k).all (fun m => msgNum m == (k : Int) + 1)) = true ∧
    (Msg.stolen ((k : Int) + 1) ∈ slotMsgs ct (frameStealingFlag true k) d k ↔ k % 10 = 2) := by
  constructor
  · by_cases hct : ct = 0 <;>
      simp only [slotMsgs, hct] <;>
      split_ifs <;> simp [msgNum]
  · by_cases hk : k % 10 = 2
    · have hfs : frameStealingFlag true k = 1 := by simp [frameStealingFlag, hk]
      by_cases hct : ct = 0 <;> simp [slotMsgs, hct, hfs, hk]
    · have hfs : frameStealingFlag true k = 0 := by simp [frameStealingFlag, hk]
      by_cases hct : ct = 0 <;> simp [slotMsgs, hct, hfs, hk]
